import Mathlib

/-!
Verification development for the LifeTime week-calculation engine
(`backend/app/services/week_calculation.py`).

The engine is pure date arithmetic.  We embed the proleptic Gregorian
calendar the way Python's `datetime.date` realises it: a date is a
(year, month, day) triple, ordered and subtracted through its ordinal
(days since 0001-01-01, with that day = 1).  Machine integers are
embedded as `Nat`/`Int`; Python `//` (floor division) is `Int.fdiv`;
fallible operations return `Except Err`.  Python's `date` supports years
1..9999 (beyond which arithmetic raises `OverflowError`); the embedding
leaves years unbounded and theorems that need date arithmetic to be
faithful carry an explicit bound of ordinal 3652059 = 9999-12-31.
-/

namespace LifeTime

set_option maxRecDepth 1000000

/-- A civil calendar date, mirroring Python `datetime.date` fields. -/
structure Date where
  year : Nat
  month : Nat
  day : Nat
deriving DecidableEq, Repr

/-- Gregorian leap-year rule, mirroring Python `calendar.isleap`. -/
def isLeap (y : Nat) : Bool :=
  (y % 4 == 0 && y % 100 != 0) || (y % 400 == 0)

/-- Length of a month, mirroring `calendar.monthrange(y, m)[1]`
(months outside 1..12 never arise on valid dates; they get a junk value). -/
def daysInMonth (y m : Nat) : Nat :=
  if m = 1 then 31
  else if m = 2 then (if isLeap y then 29 else 28)
  else if m = 3 then 31
  else if m = 4 then 30
  else if m = 5 then 31
  else if m = 6 then 30
  else if m = 7 then 31
  else if m = 8 then 31
  else if m = 9 then 30
  else if m = 10 then 31
  else if m = 11 then 30
  else 31

/-- Cumulative month lengths of a non-leap year (CPython `_DAYS_BEFORE_MONTH`
table). Arguments outside 1..13 never arise on valid dates. -/
def daysBeforeMonthBase : Nat → Nat
  | 1 => 0
  | 2 => 31
  | 3 => 59
  | 4 => 90
  | 5 => 120
  | 6 => 151
  | 7 => 181
  | 8 => 212
  | 9 => 243
  | 10 => 273
  | 11 => 304
  | 12 => 334
  | _ => 365

/-- Days in the months strictly before month `m` of year `y`
(CPython `_days_before_month`). -/
def daysBeforeMonth (y m : Nat) : Nat :=
  daysBeforeMonthBase m + (if 2 < m ∧ isLeap y = true then 1 else 0)

/-- Length of a year. -/
def daysInYear (y : Nat) : Nat := if isLeap y then 366 else 365

/-- Days in the years strictly before year `y` (Python `_days_before_year`). -/
def daysBeforeYear (y : Nat) : Nat :=
  365 * (y - 1) + (y - 1) / 4 - (y - 1) / 100 + (y - 1) / 400

/-- Proleptic Gregorian ordinal of a date (Python `date.toordinal`):
0001-01-01 has ordinal 1. -/
def Date.toOrdinal (d : Date) : Nat :=
  daysBeforeYear d.year + daysBeforeMonth d.year d.month + d.day

/-- Well-formedness of a (year, month, day) triple, as enforced by the
Python `date` constructor (minus the 9999 upper year cap, see header). -/
def isValidDate (d : Date) : Bool :=
  1 ≤ d.year && 1 ≤ d.month && d.month ≤ 12 && 1 ≤ d.day &&
    d.day ≤ daysInMonth d.year d.month

/-- Year search for ordinal-to-date conversion: starting from year `y`
with `r` days remaining (1-based), consume whole years. -/
def findYear : Nat → Nat → Nat → Nat × Nat
  | 0, y, r => (y, r)
  | fuel + 1, y, r =>
      if daysInYear y < r then findYear fuel (y + 1) (r - daysInYear y)
      else (y, r)

/-- Month search within year `y`: starting from month `m` with `r` days
remaining (1-based), consume whole months. -/
def findMonth (y : Nat) : Nat → Nat → Nat → Nat × Nat
  | 0, m, r => (m, r)
  | fuel + 1, m, r =>
      if daysInMonth y m < r then findMonth y fuel (m + 1) (r - daysInMonth y m)
      else (m, r)

/-- Date with a given proleptic Gregorian ordinal (Python `date.fromordinal`).
The year fuel 10100 covers every ordinal of the Python date range. -/
def fromOrdinal (n : Nat) : Date :=
  let p := findYear 10100 1 n
  let q := findMonth p.1 12 1 p.2
  ⟨p.1, q.1, q.2⟩

/-- `d + timedelta(days = n)` on ordinals. -/
def addDays (d : Date) (n : Int) : Date :=
  fromOrdinal ((d.toOrdinal : Int) + n).toNat

/-- `(a - b).days` for Python dates. -/
def dateSub (a b : Date) : Int :=
  (a.toOrdinal : Int) - (b.toOrdinal : Int)

/-! ### Arithmetic facts about the calendar embedding -/

theorem isLeap_iff (y : Nat) :
    isLeap y = true ↔ (y % 4 = 0 ∧ y % 100 ≠ 0) ∨ y % 400 = 0 := by
  simp [isLeap, Bool.or_eq_true, Bool.and_eq_true, beq_iff_eq, bne_iff_ne]

theorem isLeap_false_iff (y : Nat) :
    isLeap y = false ↔ ¬((y % 4 = 0 ∧ y % 100 ≠ 0) ∨ y % 400 = 0) := by
  rw [← isLeap_iff]
  cases isLeap y <;> simp

theorem daysInYear_ge (y : Nat) : 365 ≤ daysInYear y := by
  unfold daysInYear; split <;> omega

theorem daysInYear_le (y : Nat) : daysInYear y ≤ 366 := by
  unfold daysInYear; split <;> omega

theorem daysInMonth_pos (y m : Nat) : 1 ≤ daysInMonth y m := by
  unfold daysInMonth
  repeat' split
  all_goals omega

theorem daysInMonth_le (y m : Nat) : daysInMonth y m ≤ 31 := by
  unfold daysInMonth
  repeat' split
  all_goals omega

theorem daysInMonth_feb (y : Nat) (h : isLeap y = false) :
    daysInMonth y 2 = 28 := by
  simp [daysInMonth, h]

theorem daysBeforeMonthBase_big (k : Nat) : daysBeforeMonthBase (k + 13) = 365 := rfl

theorem daysBeforeMonthBase_le (m : Nat) : daysBeforeMonthBase m ≤ 365 := by
  rcases m with _|_|_|_|_|_|_|_|_|_|_|_|_|m <;> simp [daysBeforeMonthBase]

theorem daysBeforeMonth_one (y : Nat) : daysBeforeMonth y 1 = 0 := by
  simp [daysBeforeMonth, daysBeforeMonthBase]

theorem daysBeforeMonth_two (y : Nat) : daysBeforeMonth y 2 = 31 := by
  simp [daysBeforeMonth, daysBeforeMonthBase]

theorem daysBeforeMonth_big (y m : Nat) (h : 13 ≤ m) :
    daysBeforeMonth y m = daysInYear y := by
  obtain ⟨k, rfl⟩ : ∃ k, m = k + 13 := ⟨m - 13, by omega⟩
  unfold daysBeforeMonth daysInYear
  rw [daysBeforeMonthBase_big]
  cases h2 : isLeap y <;> simp [h2]

theorem daysBeforeMonth_succ (y m : Nat) (h1 : 1 ≤ m) (h2 : m ≤ 12) :
    daysBeforeMonth y (m + 1) = daysBeforeMonth y m + daysInMonth y m := by
  interval_cases m <;> cases h : isLeap y <;>
    simp [daysBeforeMonth, daysBeforeMonthBase, daysInMonth, h]

theorem daysBeforeMonth_le_year (y m : Nat) :
    daysBeforeMonth y m ≤ daysInYear y := by
  have hb := daysBeforeMonthBase_le m
  unfold daysBeforeMonth daysInYear
  cases h : isLeap y with
  | true =>
    simp [h]
    split <;> omega
  | false =>
    simp [h]
    omega

theorem daysBeforeMonth_near (y z m : Nat) :
    daysBeforeMonth y m ≤ daysBeforeMonth z m + 1 := by
  unfold daysBeforeMonth
  split <;> split <;> omega

theorem daysBeforeYear_one : daysBeforeYear 1 = 0 := rfl

theorem daysInYear_leap (y : Nat) (h : isLeap y = true) : daysInYear y = 366 := by
  simp [daysInYear, h]

theorem daysInYear_nonleap (y : Nat) (h : isLeap y = false) : daysInYear y = 365 := by
  simp [daysInYear, h]

set_option maxHeartbeats 2000000 in
theorem daysBeforeYear_succ (y : Nat) (hy : 1 ≤ y) :
    daysBeforeYear (y + 1) = daysBeforeYear y + daysInYear y := by
  cases h : isLeap y with
  | true =>
    have hp := (isLeap_iff y).mp h
    rw [daysInYear_leap y h]
    unfold daysBeforeYear
    omega
  | false =>
    have hp := (isLeap_false_iff y).mp h
    rw [daysInYear_nonleap y h]
    unfold daysBeforeYear
    omega

theorem daysBeforeYear_mono (y z : Nat) (h : y ≤ z) :
    daysBeforeYear y ≤ daysBeforeYear z := by
  obtain ⟨k, rfl⟩ : ∃ k, z = y + k := ⟨z - y, by omega⟩
  clear h
  induction k with
  | zero => exact le_refl _
  | succ n ih =>
    rcases Nat.eq_zero_or_pos (y + n) with h0 | hpos
    · have hy : y = 0 := by omega
      have hn : n = 0 := by omega
      subst hy; subst hn
      decide
    · have hstep := daysBeforeYear_succ (y + n) hpos
      have h2 : y + (n + 1) = (y + n) + 1 := by omega
      rw [h2, hstep]
      omega

theorem isValidDate_iff (d : Date) :
    isValidDate d = true ↔
      1 ≤ d.year ∧ 1 ≤ d.month ∧ d.month ≤ 12 ∧ 1 ≤ d.day ∧
        d.day ≤ daysInMonth d.year d.month := by
  simp [isValidDate, Bool.and_eq_true, and_assoc]

theorem toOrdinal_pos (d : Date) (h : isValidDate d = true) : 1 ≤ d.toOrdinal := by
  rw [isValidDate_iff] at h
  unfold Date.toOrdinal
  omega

theorem toOrdinal_lower (d : Date) (h : isValidDate d = true) :
    daysBeforeYear d.year + 1 ≤ d.toOrdinal := by
  rw [isValidDate_iff] at h
  unfold Date.toOrdinal
  omega

theorem toOrdinal_upper (d : Date) (h : isValidDate d = true) :
    d.toOrdinal ≤ daysBeforeYear d.year + daysInYear d.year := by
  rw [isValidDate_iff] at h
  obtain ⟨h1, h2, h3, h4, h5⟩ := h
  have hs := daysBeforeMonth_succ d.year d.month h2 h3
  have hy := daysBeforeMonth_le_year d.year (d.month + 1)
  unfold Date.toOrdinal
  omega

theorem findYear_spec : ∀ fuel y r, 1 ≤ y → 1 ≤ r →
    r ≤ 365 * fuel + daysInYear y →
    1 ≤ (findYear fuel y r).1 ∧ y ≤ (findYear fuel y r).1 ∧
    1 ≤ (findYear fuel y r).2 ∧
    (findYear fuel y r).2 ≤ daysInYear (findYear fuel y r).1 ∧
    daysBeforeYear (findYear fuel y r).1 + (findYear fuel y r).2 =
      daysBeforeYear y + r := by
  intro fuel
  induction fuel with
  | zero =>
    intro y r hy hr hb
    have hb2 : r ≤ daysInYear y := by omega
    exact ⟨hy, le_refl y, hr, hb2, rfl⟩
  | succ n ih =>
    intro y r hy hr hb
    by_cases hlt : daysInYear y < r
    · have hstep : findYear (n + 1) y r = findYear n (y + 1) (r - daysInYear y) := by
        simp only [findYear, if_pos hlt]
      rw [hstep]
      have hge := daysInYear_ge y
      have hge2 := daysInYear_ge (y + 1)
      have h := ih (y + 1) (r - daysInYear y) (by omega) (by omega) (by omega)
      have hsucc := daysBeforeYear_succ y hy
      exact ⟨h.1, by omega, h.2.2.1, h.2.2.2.1, by omega⟩
    · have hstep : findYear (n + 1) y r = (y, r) := by
        simp only [findYear, if_neg hlt]
      rw [hstep]
      have hb2 : r ≤ daysInYear y := by omega
      exact ⟨hy, le_refl y, hr, hb2, rfl⟩

theorem findMonth_spec (y : Nat) : ∀ fuel m r, 1 ≤ m → 1 ≤ r →
    daysBeforeMonth y m + r ≤ daysInYear y → 13 ≤ m + fuel →
    1 ≤ (findMonth y fuel m r).1 ∧ (findMonth y fuel m r).1 ≤ 12 ∧
    1 ≤ (findMonth y fuel m r).2 ∧
    (findMonth y fuel m r).2 ≤ daysInMonth y (findMonth y fuel m r).1 ∧
    daysBeforeMonth y (findMonth y fuel m r).1 + (findMonth y fuel m r).2 =
      daysBeforeMonth y m + r := by
  intro fuel
  induction fuel with
  | zero =>
    intro m r hm hr hb hf
    exact absurd (daysBeforeMonth_big y m (by omega)) (by omega)
  | succ n ih =>
    intro m r hm hr hb hf
    have hm12 : m ≤ 12 := by
      by_contra hgt
      have := daysBeforeMonth_big y m (by omega)
      omega
    by_cases hlt : daysInMonth y m < r
    · have hstep : findMonth y (n + 1) m r =
          findMonth y n (m + 1) (r - daysInMonth y m) := by
        simp only [findMonth, if_pos hlt]
      rw [hstep]
      have hsucc := daysBeforeMonth_succ y m hm hm12
      have h := ih (m + 1) (r - daysInMonth y m) (by omega) (by omega)
        (by omega) (by omega)
      exact ⟨h.1, h.2.1, h.2.2.1, h.2.2.2.1, by omega⟩
    · have hstep : findMonth y (n + 1) m r = (m, r) := by
        simp only [findMonth, if_neg hlt]
      rw [hstep]
      have hb2 : r ≤ daysInMonth y m := by omega
      exact ⟨hm, hm12, hr, hb2, rfl⟩

theorem fromOrdinal_spec (n : Nat) (h1 : 1 ≤ n) (h2 : n ≤ 3652059) :
    isValidDate (fromOrdinal n) = true ∧ (fromOrdinal n).toOrdinal = n := by
  have hy := findYear_spec 10100 1 n (by omega) h1
    (by have := daysInYear_ge 1; have := daysInYear_le 1; omega)
  set p := findYear 10100 1 n with hp
  obtain ⟨hy1, hy2, hy3, hy4, hy5⟩ := hy
  have hm := findMonth_spec p.1 12 1 p.2 (by omega) hy3
    (by rw [daysBeforeMonth_one]; omega) (by omega)
  set q := findMonth p.1 12 1 p.2 with hq
  obtain ⟨hm1, hm2, hm3, hm4, hm5⟩ := hm
  rw [daysBeforeMonth_one] at hm5
  have hd : fromOrdinal n = ⟨p.1, q.1, q.2⟩ := rfl
  rw [daysBeforeYear_one] at hy5
  constructor
  · rw [hd, isValidDate_iff]
    exact ⟨hy1, hm1, hm2, hm3, hm4⟩
  · rw [hd]
    unfold Date.toOrdinal
    simp only
    omega

theorem toOrdinal_fromOrdinal (n : Nat) (h1 : 1 ≤ n) (h2 : n ≤ 3652059) :
    (fromOrdinal n).toOrdinal = n :=
  (fromOrdinal_spec n h1 h2).2

theorem fromOrdinal_valid (n : Nat) (h1 : 1 ≤ n) (h2 : n ≤ 3652059) :
    isValidDate (fromOrdinal n) = true :=
  (fromOrdinal_spec n h1 h2).1

/-! ### The week-calculation service -/

/-- Error kinds raised by the service.  `valueError` is Python's built-in
`ValueError` (range checks, and the bare `date` constructor); the other
three are the module's own `WeekCalculationError` subclasses. -/
inductive Err where
  | invalidDate
  | futureDate
  | invalidTimezone
  | valueError
deriving DecidableEq, Repr

/-- The `WeekType` enumeration. -/
inductive WeekType where
  | NORMAL
  | BIRTHDAY
  | YEAR_START
  | LEAP_DAY
  | DST_TRANSITION
deriving DecidableEq, Repr

/-- Model of a resolved `zoneinfo.ZoneInfo`: its key, the UTC offset the
zone assigns to local midnight of a given date ordinal (`none` models the
offset computation raising), the zone's current civil date
(`datetime.now(tz).date()`) and its current UTC offset. -/
structure ZoneInfo where
  key : String
  utcoffset : Nat → Option Int
  localToday : Date
  nowOffset : Int

/-- Model of the IANA timezone database behind `zoneinfo.ZoneInfo`: an
exact, case-sensitive name lookup (`none` models `ZoneInfoNotFoundError`). -/
def TzDb := String → Option ZoneInfo

/-- Model of the wall clock: the system-local civil date read by
`date.today()` and the UTC civil date read by `datetime.now(timezone.utc)`. -/
structure Clock where
  sysToday : Date
  utcNowDate : Date

/-- A `datetime.now(...)` value as the service consumes it: its civil date
part and the UTC offset of the zone it was taken in. -/
structure Datetime where
  dateValue : Date
  offset : Int
deriving DecidableEq, Repr

deriving instance DecidableEq for Except

/-- `WeekCalculationService.validate_date_of_birth` (the `isinstance`
check is subsumed by typing). -/
def validate_date_of_birth (clk : Clock) (dob : Date) : Except Err Unit :=
  if clk.sysToday.toOrdinal < dob.toOrdinal then .error .futureDate
  else if dob.year < 1900 then .error .invalidDate
  else .ok ()

/-- `WeekCalculationService.validate_timezone`. -/
def validate_timezone (db : TzDb) (timezone : String) : Except Err ZoneInfo :=
  match db timezone with
  | some tz => .ok tz
  | none => .error .invalidTimezone

/-- Python `str.upper()`, embedded on the character list (all timezone
names involved are ASCII). -/
def strUpper (s : String) : String := ⟨s.data.map Char.toUpper⟩

/-- `WeekCalculationService.get_timezone_aware_datetime`. -/
def get_timezone_aware_datetime (db : TzDb) (clk : Clock) (timezone : String) :
    Except Err Datetime :=
  if strUpper timezone = "UTC" then .ok ⟨clk.utcNowDate, 0⟩
  else (validate_timezone db timezone).map fun tz => ⟨tz.localToday, tz.nowOffset⟩

/-- `dob + relativedelta(years = n)`: same month `n` years later, the day
clamped to the target month's length (dateutil's resolution rule). -/
def addYears (d : Date) (n : Int) : Date :=
  let y := ((d.year : Int) + n).toNat
  ⟨y, d.month, min d.day (daysInMonth y d.month)⟩

/-- `WeekCalculationService.calculate_total_weeks`. -/
def calculate_total_weeks (clk : Clock) (dob : Date) (lifespan_years : Int) :
    Except Err Int := do
  let _ ← validate_date_of_birth clk dob
  if lifespan_years ≤ 0 then
    .error .valueError
  else if 150 < lifespan_years then
    .error .valueError
  else
    let end_date := addYears dob lifespan_years
    let total_days := dateSub end_date dob
    .ok (total_days.fdiv 7)

/-- `WeekCalculationService.calculate_current_week_index`. -/
def calculate_current_week_index (db : TzDb) (clk : Clock) (dob : Date)
    (timezone : String) : Except Err Int := do
  let _ ← validate_date_of_birth clk dob
  let now ← get_timezone_aware_datetime db clk timezone
  let current_date := now.dateValue
  let days_since_birth := dateSub current_date dob
  if days_since_birth < 0 then
    .ok 0
  else
    .ok (days_since_birth.fdiv 7)

/-- `WeekCalculationService.get_week_start_date`. -/
def get_week_start_date (clk : Clock) (dob : Date) (week_index : Int) :
    Except Err Date := do
  let _ ← validate_date_of_birth clk dob
  if week_index < 0 then .error .valueError
  else .ok (addDays dob (7 * week_index))

/-- `WeekCalculationService.get_week_end_date`. -/
def get_week_end_date (clk : Clock) (dob : Date) (week_index : Int) :
    Except Err Date := do
  let start_date ← get_week_start_date clk dob week_index
  .ok (addDays start_date 6)

/-- The Python `date(y, m, d)` constructor: `ValueError` on an ill-formed
triple. -/
def mkDate (y m day : Nat) : Except Err Date :=
  if isValidDate ⟨y, m, day⟩ then .ok ⟨y, m, day⟩ else .error .valueError

/-- The `for _ in range(1, 200)` loop of `_is_birthday_week`.  The body
recomputes the same anniversary each iteration: `continue` when it precedes
the week, return `True` when it lies inside, `break` when it lies beyond;
exhausting the loop yields `False`. -/
def birthdayLoop (anniversary week_start week_end : Date) : Nat → Bool
  | 0 => false
  | fuel + 1 =>
    if anniversary.toOrdinal < week_start.toOrdinal then
      birthdayLoop anniversary week_start week_end fuel
    else if week_start.toOrdinal ≤ anniversary.toOrdinal ∧
        anniversary.toOrdinal ≤ week_end.toOrdinal then
      true
    else if week_end.toOrdinal < anniversary.toOrdinal then
      false
    else
      birthdayLoop anniversary week_start week_end fuel

/-- `WeekCalculationService._is_birthday_week`. -/
def _is_birthday_week (dob week_start week_end : Date) : Except Err Bool := do
  let anniversary ← mkDate week_start.year dob.month dob.day
  .ok (birthdayLoop anniversary week_start week_end 199)

/-- `WeekCalculationService._is_year_start_week`. -/
def _is_year_start_week (week_start week_end : Date) : Bool :=
  let jan_1 : Date := ⟨week_start.year, 1, 1⟩
  if week_start.toOrdinal ≤ jan_1.toOrdinal ∧
      jan_1.toOrdinal ≤ week_end.toOrdinal then
    true
  else if week_start.year ≠ week_end.year then
    true
  else
    false

/-- `WeekCalculationService._is_leap_day_week`. -/
def _is_leap_day_week (week_start week_end : Date) : Bool :=
  let year := week_start.year
  if isLeap year then
    let leap_day : Date := ⟨year, 2, 29⟩
    decide (week_start.toOrdinal ≤ leap_day.toOrdinal ∧
      leap_day.toOrdinal ≤ week_end.toOrdinal)
  else if week_start.year ≠ week_end.year ∧ isLeap week_end.year = true then
    let leap_day : Date := ⟨week_end.year, 2, 29⟩
    decide (leap_day.toOrdinal ≤ week_end.toOrdinal)
  else
    false

/-- The day-walking loop of `_is_dst_transition_week`.  The whole walk sits
inside one `try/except`, so a failing offset lookup aborts the walk and the
week counts as non-DST. -/
def dstWalk (tz : ZoneInfo) (weekEndOrd : Nat) : Nat → Nat → Bool
  | 0, _ => false
  | fuel + 1, current =>
    if current ≤ weekEndOrd then
      match tz.utcoffset current, tz.utcoffset (current + 1) with
      | some o1, some o2 =>
        if o1 ≠ o2 then true else dstWalk tz weekEndOrd fuel (current + 1)
      | _, _ => false
    else
      false

/-- `WeekCalculationService._is_dst_transition_week`. -/
def _is_dst_transition_week (week_start week_end : Date)
    (tz_info : Option ZoneInfo) : Bool :=
  match tz_info with
  | none => false
  | some tz =>
    if tz.key = "UTC" then false
    else dstWalk tz week_end.toOrdinal
      (week_end.toOrdinal + 1 - week_start.toOrdinal) week_start.toOrdinal

/-- `WeekCalculationService.detect_special_week_type`. -/
def detect_special_week_type (db : TzDb) (clk : Clock) (dob : Date)
    (week_index : Int) (timezone : String) : Except Err WeekType := do
  let _ ← validate_date_of_birth clk dob
  let tz_info ← if strUpper timezone = "UTC" then .ok (none : Option ZoneInfo)
    else (validate_timezone db timezone).map some
  let week_start ← get_week_start_date clk dob week_index
  let week_end ← get_week_end_date clk dob week_index
  let bday ← _is_birthday_week dob week_start week_end
  if bday then .ok .BIRTHDAY
  else if _is_year_start_week week_start week_end then .ok .YEAR_START
  else if _is_leap_day_week week_start week_end then .ok .LEAP_DAY
  else if _is_dst_transition_week week_start week_end tz_info then
    .ok .DST_TRANSITION
  else .ok .NORMAL

/-- dateutil `relativedelta._set_months`: split a total month count into
(years, months) with `|months| ≤ 11`, signs matching. -/
def setMonths (months : Int) : Int × Int :=
  if 11 < months.natAbs then
    (months.sign * ((months.natAbs : Int) / 12),
     months.sign * ((months.natAbs : Int) % 12))
  else
    (0, months)

/-- dateutil `relativedelta.__radd__` for a pure (years, months) delta:
add them, renormalise the month into 1..12, clamp the day. -/
def relAdd (d : Date) (years months : Int) : Date :=
  let year0 := (d.year : Int) + years
  let month0 := (d.month : Int) + months
  let pair : Int × Int :=
    if 12 < month0 then (year0 + 1, month0 - 12)
    else if month0 < 1 then (year0 - 1, month0 + 12)
    else (year0, month0)
  let y := pair.1.toNat
  let m := pair.2.toNat
  ⟨y, m, min d.day (daysInMonth y m)⟩

/-- The correction loop of `relativedelta(dt1, dt2)`: step the month count
by `increment` while `dt2 + delta` still overshoots `dt1`. -/
def rdLoop (dt2 : Date) (increment : Int) (overshoots : Date → Bool) :
    Int → Nat → Int
  | months, 0 => months
  | months, fuel + 1 =>
    let ym := setMonths months
    let dtm := relAdd dt2 ym.1 ym.2
    if overshoots dtm then
      rdLoop dt2 increment overshoots (months + increment) fuel
    else months

/-- `dateutil.relativedelta(dt1, dt2)`: the calendar-aware
(years, months, days) difference between two dates. -/
def relativedeltaDates (dt1 dt2 : Date) : Int × Int × Int :=
  let months0 : Int := ((dt1.year : Int) - (dt2.year : Int)) * 12 +
    ((dt1.month : Int) - (dt2.month : Int))
  let lt12 := dt1.toOrdinal < dt2.toOrdinal
  let increment : Int := if lt12 then 1 else -1
  let overshoots : Date → Bool := fun dtm =>
    if lt12 then decide (dtm.toOrdinal < dt1.toOrdinal)
    else decide (dt1.toOrdinal < dtm.toOrdinal)
  let months := rdLoop dt2 increment overshoots months0 36
  let ym := setMonths months
  let dtm := relAdd dt2 ym.1 ym.2
  (ym.1, ym.2, (dt1.toOrdinal : Int) - (dtm.toOrdinal : Int))

/-- The dictionary produced by `get_week_summary` (ISO date strings kept
as dates). -/
structure WeekSummary where
  week_index : Int
  week_start : Date
  week_end : Date
  week_type : WeekType
  age_years : Int
  age_months : Int
  age_days : Int
  days_lived : Int
  is_current_week : Bool
deriving DecidableEq, Repr

/-- `WeekCalculationService.get_week_summary`. -/
def get_week_summary (db : TzDb) (clk : Clock) (dob : Date) (week_index : Int)
    (timezone : String) : Except Err WeekSummary := do
  let _ ← validate_date_of_birth clk dob
  let week_start ← get_week_start_date clk dob week_index
  let week_end ← get_week_end_date clk dob week_index
  let week_type ← detect_special_week_type db clk dob week_index timezone
  let age := relativedeltaDates week_start dob
  let cur ← calculate_current_week_index db clk dob timezone
  .ok {
    week_index := week_index
    week_start := week_start
    week_end := week_end
    week_type := week_type
    age_years := age.1
    age_months := age.2.1
    age_days := age.2.2
    days_lived := dateSub week_start dob
    is_current_week := week_index == cur }

/-- Python `round(x, 2)` on the exact rational value of `x`. -/
def round2 (q : ℚ) : ℚ := ((round (q * 100) : ℤ) : ℚ) / 100

/-- The dictionary produced by `calculate_life_progress`. -/
structure LifeProgress where
  date_of_birth : Date
  lifespan_years : Int
  timezone : String
  total_weeks : Int
  current_week_index : Int
  weeks_lived : Int
  weeks_remaining : Int
  progress_percentage : ℚ
  age_years : Int
  age_months : Int
  age_days : Int
  days_lived : Int
  current_week_info : WeekSummary
deriving DecidableEq, Repr

/-- `WeekCalculationService.calculate_life_progress`. -/
def calculate_life_progress (db : TzDb) (clk : Clock) (dob : Date)
    (lifespan_years : Int) (timezone : String) : Except Err LifeProgress := do
  let total_weeks ← calculate_total_weeks clk dob lifespan_years
  let current_week ← calculate_current_week_index db clk dob timezone
  let progress0 : ℚ :=
    if 0 < total_weeks then ((current_week : ℚ) / (total_weeks : ℚ)) * 100 else 0
  let progress_percentage := min 100 progress0
  let remaining_weeks := max 0 (total_weeks - current_week)
  let now ← get_timezone_aware_datetime db clk timezone
  let current_age := relativedeltaDates now.dateValue dob
  let info ← get_week_summary db clk dob current_week timezone
  .ok {
    date_of_birth := dob
    lifespan_years := lifespan_years
    timezone := timezone
    total_weeks := total_weeks
    current_week_index := current_week
    weeks_lived := current_week + 1
    weeks_remaining := remaining_weeks
    progress_percentage := round2 progress_percentage
    age_years := current_age.1
    age_months := current_age.2.1
    age_days := current_age.2.2
    days_lived := dateSub now.dateValue dob
    current_week_info := info }

/-! ### Reduction helpers for the `Except` monad and the validators -/

theorem bind_ok_eq {α β : Type} (a : α) (f : α → Except Err β) :
    (Except.ok a : Except Err α) >>= f = f a := rfl

theorem bind_error_eq {α β : Type} (e : Err) (f : α → Except Err β) :
    (Except.error e : Except Err α) >>= f = Except.error e := rfl

theorem map_ok_eq {α β : Type} (a : α) (f : α → β) :
    (Except.ok a : Except Err α).map f = Except.ok (f a) := rfl

theorem map_error_eq {α β : Type} (e : Err) (f : α → β) :
    (Except.error e : Except Err α).map f = Except.error e := rfl

theorem validate_ok (clk : Clock) (dob : Date)
    (hpast : dob.toOrdinal ≤ clk.sysToday.toOrdinal) (hyear : 1900 ≤ dob.year) :
    validate_date_of_birth clk dob = .ok () := by
  unfold validate_date_of_birth
  rw [if_neg (by omega), if_neg (by omega)]

theorem daysInMonth_ge28 (y m : Nat) : 28 ≤ daysInMonth y m := by
  unfold daysInMonth
  repeat' split
  all_goals omega

/-! ### C4: boundary validation of `calculate_total_weeks` -/

/-- C4: `calculate_total_weeks` raises exactly the specified error for each
out-of-bounds input: `InvalidDateError` for a birth year before 1900,
`FutureDateError` for a birth date after today, `ValueError` (a range
error) for a lifespan `≤ 0` or `> 150`; and for a valid birth date with a
lifespan in 1..150 it raises none of these and returns a value. -/
theorem c4_total_weeks_validation :
    (∀ (clk : Clock) (dob : Date) (L : Int),
      dob.toOrdinal ≤ clk.sysToday.toOrdinal → dob.year < 1900 →
      calculate_total_weeks clk dob L = .error .invalidDate) ∧
    (∀ (clk : Clock) (dob : Date) (L : Int),
      clk.sysToday.toOrdinal < dob.toOrdinal →
      calculate_total_weeks clk dob L = .error .futureDate) ∧
    (∀ (clk : Clock) (dob : Date) (L : Int),
      dob.toOrdinal ≤ clk.sysToday.toOrdinal → 1900 ≤ dob.year → L ≤ 0 →
      calculate_total_weeks clk dob L = .error .valueError) ∧
    (∀ (clk : Clock) (dob : Date) (L : Int),
      dob.toOrdinal ≤ clk.sysToday.toOrdinal → 1900 ≤ dob.year → 150 < L →
      calculate_total_weeks clk dob L = .error .valueError) ∧
    (∀ (clk : Clock) (dob : Date) (L : Int),
      dob.toOrdinal ≤ clk.sysToday.toOrdinal → 1900 ≤ dob.year →
      1 ≤ L → L ≤ 150 →
      calculate_total_weeks clk dob L =
        .ok ((dateSub (addYears dob L) dob).fdiv 7)) := by
  refine ⟨?_, ?_, ?_, ?_, ?_⟩
  · intro clk dob L h1 h2
    unfold calculate_total_weeks validate_date_of_birth
    rw [if_neg (by omega), if_pos (by omega), bind_error_eq]
  · intro clk dob L h1
    unfold calculate_total_weeks validate_date_of_birth
    rw [if_pos (by omega), bind_error_eq]
  · intro clk dob L h1 h2 h3
    unfold calculate_total_weeks
    rw [validate_ok clk dob h1 h2, bind_ok_eq, if_pos (by omega)]
  · intro clk dob L h1 h2 h3
    unfold calculate_total_weeks
    rw [validate_ok clk dob h1 h2, bind_ok_eq, if_neg (by omega),
      if_pos (by omega)]
  · intro clk dob L h1 h2 h3 h4
    unfold calculate_total_weeks
    rw [validate_ok clk dob h1 h2, bind_ok_eq, if_neg (by omega),
      if_neg (by omega)]

/-- Witness for C4 at concrete inputs, today being 2026-10-12: the 1899
birth date, a future birth date, lifespans 0 and 151, and a valid call. -/
theorem c4_total_weeks_validation_witness :
    calculate_total_weeks ⟨⟨2026, 10, 12⟩, ⟨2026, 10, 12⟩⟩ ⟨1899, 12, 31⟩ 80 =
      .error .invalidDate ∧
    calculate_total_weeks ⟨⟨2026, 10, 12⟩, ⟨2026, 10, 12⟩⟩ ⟨2026, 10, 13⟩ 80 =
      .error .futureDate ∧
    calculate_total_weeks ⟨⟨2026, 10, 12⟩, ⟨2026, 10, 12⟩⟩ ⟨2000, 1, 1⟩ 0 =
      .error .valueError ∧
    calculate_total_weeks ⟨⟨2026, 10, 12⟩, ⟨2026, 10, 12⟩⟩ ⟨2000, 1, 1⟩ 151 =
      .error .valueError ∧
    calculate_total_weeks ⟨⟨2026, 10, 12⟩, ⟨2026, 10, 12⟩⟩ ⟨2000, 1, 1⟩ 80 =
      .ok ((dateSub (addYears ⟨2000, 1, 1⟩ 80) ⟨2000, 1, 1⟩).fdiv 7) :=
  ⟨c4_total_weeks_validation.1 _ _ _ (by decide) (by decide),
   c4_total_weeks_validation.2.1 _ _ _ (by decide),
   c4_total_weeks_validation.2.2.1 _ _ _ (by decide) (by decide) (by decide),
   c4_total_weeks_validation.2.2.2.1 _ _ _ (by decide) (by decide) (by decide),
   c4_total_weeks_validation.2.2.2.2 _ _ _ (by decide) (by decide) (by decide)
     (by decide)⟩

/-! ### C5: week start/end dates and the week-span invariant -/

/-- C5: for a valid birth date and `weekIndex ≥ 0` (within the Python date
range), `get_week_start_date` returns `birthDate + 7*weekIndex` days,
`get_week_end_date` returns the start plus exactly 6 days, and both raise
`ValueError` (a range error) for `weekIndex < 0`. -/
theorem c5_week_span (clk : Clock) (dob : Date) (k : Int)
    (hdob : isValidDate dob = true)
    (hpast : dob.toOrdinal ≤ clk.sysToday.toOrdinal)
    (hyear : 1900 ≤ dob.year) :
    (0 ≤ k → (dob.toOrdinal : Int) + 7 * k + 6 ≤ 3652059 →
      ∃ s e, get_week_start_date clk dob k = .ok s ∧
        get_week_end_date clk dob k = .ok e ∧
        (s.toOrdinal : Int) = (dob.toOrdinal : Int) + 7 * k ∧
        (e.toOrdinal : Int) = (s.toOrdinal : Int) + 6 ∧
        dateSub e s = 6) ∧
    (k < 0 → get_week_start_date clk dob k = .error .valueError ∧
      get_week_end_date clk dob k = .error .valueError) := by
  have hval := validate_ok clk dob hpast hyear
  constructor
  · intro hk hrange
    have hordpos := toOrdinal_pos dob hdob
    have hs : get_week_start_date clk dob k = .ok (addDays dob (7 * k)) := by
      unfold get_week_start_date
      rw [hval, bind_ok_eq, if_neg (by omega)]
    have he : get_week_end_date clk dob k =
        .ok (addDays (addDays dob (7 * k)) 6) := by
      unfold get_week_end_date
      rw [hs, bind_ok_eq]
    have hn1 : (1 : Nat) ≤ ((dob.toOrdinal : Int) + 7 * k).toNat := by omega
    have hn2 : ((dob.toOrdinal : Int) + 7 * k).toNat ≤ 3652059 := by omega
    have hios := toOrdinal_fromOrdinal _ hn1 hn2
    have hso : ((addDays dob (7 * k)).toOrdinal : Int) =
        (dob.toOrdinal : Int) + 7 * k := by
      show ((fromOrdinal ((dob.toOrdinal : Int) + 7 * k).toNat).toOrdinal : Int) = _
      omega
    have hm1 : (1 : Nat) ≤
        (((addDays dob (7 * k)).toOrdinal : Int) + 6).toNat := by omega
    have hm2 : (((addDays dob (7 * k)).toOrdinal : Int) + 6).toNat ≤
        3652059 := by omega
    have hioe := toOrdinal_fromOrdinal _ hm1 hm2
    have heo : ((addDays (addDays dob (7 * k)) 6).toOrdinal : Int) =
        ((addDays dob (7 * k)).toOrdinal : Int) + 6 := by
      show ((fromOrdinal (((addDays dob (7 * k)).toOrdinal : Int) + 6).toNat).toOrdinal : Int) = _
      omega
    refine ⟨addDays dob (7 * k), addDays (addDays dob (7 * k)) 6, hs, he,
      hso, heo, ?_⟩
    unfold dateSub
    omega
  · intro hk
    have hs : get_week_start_date clk dob k = .error .valueError := by
      unfold get_week_start_date
      rw [hval, bind_ok_eq, if_pos hk]
    refine ⟨hs, ?_⟩
    unfold get_week_end_date
    rw [hs, bind_error_eq]

/-- Witness for C5 at a concrete birth date, for week 3 and week -1. -/
theorem c5_week_span_witness :
    (∃ s e, get_week_start_date ⟨⟨2026, 10, 12⟩, ⟨2026, 10, 12⟩⟩ ⟨2000, 5, 4⟩ 3 =
        .ok s ∧
      get_week_end_date ⟨⟨2026, 10, 12⟩, ⟨2026, 10, 12⟩⟩ ⟨2000, 5, 4⟩ 3 = .ok e ∧
      (s.toOrdinal : Int) = ((⟨2000, 5, 4⟩ : Date).toOrdinal : Int) + 7 * 3 ∧
      (e.toOrdinal : Int) = (s.toOrdinal : Int) + 6 ∧
      dateSub e s = 6) ∧
    (get_week_start_date ⟨⟨2026, 10, 12⟩, ⟨2026, 10, 12⟩⟩ ⟨2000, 5, 4⟩ (-1) =
        .error .valueError ∧
      get_week_end_date ⟨⟨2026, 10, 12⟩, ⟨2026, 10, 12⟩⟩ ⟨2000, 5, 4⟩ (-1) =
        .error .valueError) :=
  ⟨(c5_week_span ⟨⟨2026, 10, 12⟩, ⟨2026, 10, 12⟩⟩ ⟨2000, 5, 4⟩ 3 (by decide)
      (by decide) (by decide)).1 (by decide) (by decide),
   (c5_week_span ⟨⟨2026, 10, 12⟩, ⟨2026, 10, 12⟩⟩ ⟨2000, 5, 4⟩ (-1) (by decide)
      (by decide) (by decide)).2 (by decide)⟩

/-! ### C3: total weeks via calendar-aware year addition -/

/-- C3: for a valid birth date and lifespan in 1..150,
`calculate_total_weeks` returns the floor of
`((birthDate + lifespan calendar years) - birthDate).days / 7`, where the
year advance lands on the same month, same day `lifespan` years later with
the day clamped to the target month's length (the leap-day rule). -/
theorem c3_total_weeks_calendar (clk : Clock) (dob : Date) (L : Int)
    (hpast : dob.toOrdinal ≤ clk.sysToday.toOrdinal)
    (hyear : 1900 ≤ dob.year)
    (h1 : 1 ≤ L) (h2 : L ≤ 150) :
    calculate_total_weeks clk dob L =
      .ok ((dateSub (addYears dob L) dob).fdiv 7) ∧
    (addYears dob L).year = dob.year + L.toNat ∧
    (addYears dob L).month = dob.month ∧
    (addYears dob L).day =
      min dob.day (daysInMonth (dob.year + L.toNat) dob.month) := by
  have hy : ((dob.year : Int) + L).toNat = dob.year + L.toNat := by omega
  refine ⟨?_, ?_, rfl, ?_⟩
  · unfold calculate_total_weeks
    rw [validate_ok clk dob hpast hyear, bind_ok_eq, if_neg (by omega),
      if_neg (by omega)]
  · unfold addYears
    simpa using hy
  · unfold addYears
    simp only
    rw [hy]

/-- Witness for C3 at the spec's concrete scenario: birth 1990-01-01,
lifespan 80, hence end date 2070-01-01, 29220 days, and
`floor(29220 / 7) = 4174` total weeks. -/
theorem c3_total_weeks_calendar_witness :
    calculate_total_weeks ⟨⟨2026, 10, 12⟩, ⟨2026, 10, 12⟩⟩ ⟨1990, 1, 1⟩ 80 =
      .ok ((dateSub (addYears ⟨1990, 1, 1⟩ 80) ⟨1990, 1, 1⟩).fdiv 7) ∧
    addYears ⟨1990, 1, 1⟩ 80 = ⟨2070, 1, 1⟩ ∧
    dateSub ⟨2070, 1, 1⟩ ⟨1990, 1, 1⟩ = 29220 ∧
    (29220 : Int).fdiv 7 = 4174 ∧
    calculate_total_weeks ⟨⟨2026, 10, 12⟩, ⟨2026, 10, 12⟩⟩ ⟨1990, 1, 1⟩ 80 =
      .ok 4174 :=
  ⟨(c3_total_weeks_calendar ⟨⟨2026, 10, 12⟩, ⟨2026, 10, 12⟩⟩ ⟨1990, 1, 1⟩ 80
      (by decide) (by decide) (by decide) (by decide)).1,
   by decide, by decide, by decide, by decide⟩

/-! ### C6: timezone resolution case sensitivity -/

/-- A concrete model of the IANA database consulted by `zoneinfo`:
exact-key (case-sensitive) lookup, as the filesystem-backed zone lookup
behaves; the lowercase spelling of a valid name is absent. -/
def exampleDb : TzDb := fun s =>
  if s = "America/New_York" then
    some ⟨"America/New_York", fun _ => some (-300), ⟨2026, 10, 12⟩, -240⟩
  else if s = "UTC" then
    some ⟨"UTC", fun _ => some 0, ⟨2026, 10, 12⟩, 0⟩
  else
    none

/-- C6: `validate_timezone` is an exact, case-sensitive lookup — the
lowercase spelling of a valid IANA name fails with `InvalidTimezoneError` —
while `get_timezone_aware_datetime` special-cases the literal `"UTC"`
case-insensitively, returning the current instant with zero UTC offset for
any database whatsoever (the database is never consulted). -/
theorem c6_timezone_case (clk : Clock) :
    validate_timezone exampleDb "america/new_york" = .error .invalidTimezone ∧
    (validate_timezone exampleDb "America/New_York").isOk = true ∧
    (∀ db : TzDb,
      get_timezone_aware_datetime db clk "utc" = .ok ⟨clk.utcNowDate, 0⟩) ∧
    (∀ db : TzDb,
      get_timezone_aware_datetime db clk "UTC" = .ok ⟨clk.utcNowDate, 0⟩) ∧
    (∀ db : TzDb,
      get_timezone_aware_datetime db clk "uTc" = .ok ⟨clk.utcNowDate, 0⟩) := by
  refine ⟨rfl, rfl, ?_, ?_, ?_⟩ <;>
    · intro db
      unfold get_timezone_aware_datetime
      rw [if_pos (by decide)]

/-! ### C8: the DST classifier never fails and is false for UTC -/

theorem dstWalk_const (tz : ZoneInfo)
    (he : ∀ n, tz.utcoffset n = tz.utcoffset (n + 1)) :
    ∀ fuel cur e, dstWalk tz e fuel cur = false := by
  intro fuel
  induction fuel with
  | zero => intro cur e; rfl
  | succ n ih =>
    intro cur e
    simp only [dstWalk]
    by_cases hc : cur ≤ e
    · rw [if_pos hc]
      cases h1 : tz.utcoffset cur with
      | none => rfl
      | some o1 =>
        have h2 : tz.utcoffset (cur + 1) = some o1 := (he cur) ▸ h1
        rw [h2]
        simp only [ne_eq, not_true_eq_false, if_false]
        exact ih (cur + 1) e
    · rw [if_neg hc]

theorem dstWalk_start_none (tz : ZoneInfo) (e cur : Nat)
    (h : tz.utcoffset cur = none) :
    ∀ fuel, dstWalk tz e fuel cur = false := by
  intro fuel
  cases fuel with
  | zero => rfl
  | succ n =>
    simp only [dstWalk]
    by_cases hc : cur ≤ e
    · rw [if_pos hc, h]
    · rw [if_neg hc]

/-- C8: the DST-transition classifier returns `false` for UTC (the `None`
zone placeholder or any zone keyed `"UTC"`) and for any zone without DST
rules (constant UTC offsets), and it swallows offset-computation failure —
a failing lookup yields `false` instead of an error (the classifier is a
total boolean function). -/
theorem c8_dst_conservative (week_start week_end : Date) :
    _is_dst_transition_week week_start week_end none = false ∧
    (∀ tz : ZoneInfo, tz.key = "UTC" →
      _is_dst_transition_week week_start week_end (some tz) = false) ∧
    (∀ tz : ZoneInfo, (∀ n, tz.utcoffset n = tz.utcoffset (n + 1)) →
      _is_dst_transition_week week_start week_end (some tz) = false) ∧
    (∀ tz : ZoneInfo, tz.utcoffset week_start.toOrdinal = none →
      _is_dst_transition_week week_start week_end (some tz) = false) := by
  refine ⟨rfl, ?_, ?_, ?_⟩
  · intro tz h
    simp [_is_dst_transition_week, h]
  · intro tz h
    simp only [_is_dst_transition_week]
    by_cases hk : tz.key = "UTC"
    · rw [if_pos hk]
    · rw [if_neg hk]
      exact dstWalk_const tz h _ _ _
  · intro tz h
    simp only [_is_dst_transition_week]
    by_cases hk : tz.key = "UTC"
    · rw [if_pos hk]
    · rw [if_neg hk]
      exact dstWalk_start_none tz _ _ h _

/-- Witness for C8 on a concrete week with concrete zones: the `None`
placeholder, a zone keyed `"UTC"`, a DST-free zone with constant offset,
and a zone whose offset computation fails on every day. -/
theorem c8_dst_conservative_witness :
    _is_dst_transition_week ⟨2026, 1, 1⟩ ⟨2026, 1, 7⟩ none = false ∧
    _is_dst_transition_week ⟨2026, 1, 1⟩ ⟨2026, 1, 7⟩
      (some ⟨"UTC", fun _ => some 0, ⟨2026, 10, 12⟩, 0⟩) = false ∧
    _is_dst_transition_week ⟨2026, 1, 1⟩ ⟨2026, 1, 7⟩
      (some ⟨"Asia/Tokyo", fun _ => some 540, ⟨2026, 10, 12⟩, 540⟩) = false ∧
    _is_dst_transition_week ⟨2026, 1, 1⟩ ⟨2026, 1, 7⟩
      (some ⟨"America/New_York", fun _ => none, ⟨2026, 10, 12⟩, -300⟩) = false :=
  ⟨(c8_dst_conservative ⟨2026, 1, 1⟩ ⟨2026, 1, 7⟩).1,
   (c8_dst_conservative ⟨2026, 1, 1⟩ ⟨2026, 1, 7⟩).2.1 _ rfl,
   (c8_dst_conservative ⟨2026, 1, 1⟩ ⟨2026, 1, 7⟩).2.2.1 _ (fun _ => rfl),
   (c8_dst_conservative ⟨2026, 1, 1⟩ ⟨2026, 1, 7⟩).2.2.2 _ rfl⟩

/-! ### C9: the secondary leap-day branch is dead for 7-day weeks -/

/-- C9: on any genuine 7-day week (valid endpoints exactly 6 days apart),
the leap-day classifier equals its first branch alone: true iff
`weekStart.year` is a leap year and Feb 29 of that year lies within the
week.  In particular the secondary cross-year branch never fires. -/
theorem c9_leap_day_exact (week_start week_end : Date)
    (hws : isValidDate week_start = true)
    (hwe : isValidDate week_end = true)
    (hord : week_end.toOrdinal = week_start.toOrdinal + 6) :
    _is_leap_day_week week_start week_end =
      (isLeap week_start.year &&
        decide (week_start.toOrdinal ≤ (⟨week_start.year, 2, 29⟩ : Date).toOrdinal ∧
          (⟨week_start.year, 2, 29⟩ : Date).toOrdinal ≤ week_end.toOrdinal)) := by
  simp only [_is_leap_day_week]
  cases hl : isLeap week_start.year with
  | true => simp [hl]
  | false =>
    simp only [hl, Bool.false_eq_true, if_false, Bool.false_and]
    by_cases hc : week_start.year ≠ week_end.year ∧ isLeap week_end.year = true
    · rw [if_pos hc]
      obtain ⟨hne, hlw⟩ := hc
      obtain ⟨hv1a, hv1b, hv1c, hv1d, hv1e⟩ := (isValidDate_iff week_start).mp hws
      obtain ⟨hv2a, hv2b, hv2c, hv2d, hv2e⟩ := (isValidDate_iff week_end).mp hwe
      have hup1 := toOrdinal_upper week_start hws
      have hlo1 := toOrdinal_lower week_start hws
      have hup2 := toOrdinal_upper week_end hwe
      have hlo2 := toOrdinal_lower week_end hwe
      have hy : week_start.year < week_end.year := by
        by_contra hge
        have hsucc := daysBeforeYear_succ week_end.year (by omega)
        have hmono := daysBeforeYear_mono (week_end.year + 1) week_start.year
          (by omega)
        omega
      have hsucc2 := daysBeforeYear_succ week_start.year (by omega)
      have hmono2 := daysBeforeYear_mono (week_start.year + 1) week_end.year
        (by omega)
      have hfeb : (⟨week_end.year, 2, 29⟩ : Date).toOrdinal =
          daysBeforeYear week_end.year + 60 := by
        show daysBeforeYear week_end.year + daysBeforeMonth week_end.year 2 + 29 = _
        rw [daysBeforeMonth_two]
      simp only [decide_eq_false_iff_not]
      intro hle
      omega
    · rw [if_neg hc]

/-- Witness for C9: a leap-year week containing Feb 29 2020, and a
cross-year week running into leap year 2024 where the classifier still
answers `false`. -/
theorem c9_leap_day_exact_witness :
    _is_leap_day_week ⟨2020, 2, 24⟩ ⟨2020, 3, 1⟩ =
      (isLeap 2020 &&
        decide ((⟨2020, 2, 24⟩ : Date).toOrdinal ≤
            (⟨2020, 2, 29⟩ : Date).toOrdinal ∧
          (⟨2020, 2, 29⟩ : Date).toOrdinal ≤ (⟨2020, 3, 1⟩ : Date).toOrdinal)) ∧
    _is_leap_day_week ⟨2020, 2, 24⟩ ⟨2020, 3, 1⟩ = true ∧
    _is_leap_day_week ⟨2023, 12, 27⟩ ⟨2024, 1, 2⟩ =
      (isLeap 2023 &&
        decide ((⟨2023, 12, 27⟩ : Date).toOrdinal ≤
            (⟨2023, 2, 29⟩ : Date).toOrdinal ∧
          (⟨2023, 2, 29⟩ : Date).toOrdinal ≤ (⟨2024, 1, 2⟩ : Date).toOrdinal)) ∧
    _is_leap_day_week ⟨2023, 12, 27⟩ ⟨2024, 1, 2⟩ = false :=
  ⟨c9_leap_day_exact ⟨2020, 2, 24⟩ ⟨2020, 3, 1⟩ (by decide) (by decide)
      (by decide),
   by decide,
   c9_leap_day_exact ⟨2023, 12, 27⟩ ⟨2024, 1, 2⟩ (by decide) (by decide)
      (by decide),
   by decide⟩

/-! ### C2: classifier precedence — Birthday wins over YearStart -/

theorem week_dates_ok (clk : Clock) (dob : Date) (k : Int)
    (hvalid : validate_date_of_birth clk dob = .ok ()) (hk : 0 ≤ k) :
    get_week_start_date clk dob k = .ok (addDays dob (7 * k)) ∧
    get_week_end_date clk dob k = .ok (addDays (addDays dob (7 * k)) 6) := by
  have hs : get_week_start_date clk dob k = .ok (addDays dob (7 * k)) := by
    unfold get_week_start_date
    rw [hvalid, bind_ok_eq, if_neg (by omega)]
  refine ⟨hs, ?_⟩
  unfold get_week_end_date
  rw [hs, bind_ok_eq]

/-- C2: `detect_special_week_type` is exactly the first-match cascade over
the classifier predicates in the fixed order Birthday, YearStart, LeapDay,
DstTransition, answering `NORMAL` when none holds (and propagating a
failure of the birthday probe); consequently any week satisfying both the
Birthday and the YearStart predicate is classified `BIRTHDAY`. -/
theorem c2_birthday_precedence (db : TzDb) (clk : Clock) (dob : Date) (k : Int)
    (timezone : String) (tzinfo : Option ZoneInfo)
    (hvalid : validate_date_of_birth clk dob = .ok ())
    (hk : 0 ≤ k)
    (htz : (if strUpper timezone = "UTC" then .ok (none : Option ZoneInfo)
        else (validate_timezone db timezone).map some) = .ok tzinfo) :
    detect_special_week_type db clk dob k timezone =
      (_is_birthday_week dob (addDays dob (7 * k))
          (addDays (addDays dob (7 * k)) 6)).map (fun bday =>
        if bday then WeekType.BIRTHDAY
        else if _is_year_start_week (addDays dob (7 * k))
            (addDays (addDays dob (7 * k)) 6) then WeekType.YEAR_START
        else if _is_leap_day_week (addDays dob (7 * k))
            (addDays (addDays dob (7 * k)) 6) then WeekType.LEAP_DAY
        else if _is_dst_transition_week (addDays dob (7 * k))
            (addDays (addDays dob (7 * k)) 6) tzinfo then
          WeekType.DST_TRANSITION
        else WeekType.NORMAL) ∧
    (_is_birthday_week dob (addDays dob (7 * k))
        (addDays (addDays dob (7 * k)) 6) = .ok true →
      _is_year_start_week (addDays dob (7 * k))
        (addDays (addDays dob (7 * k)) 6) = true →
      detect_special_week_type db clk dob k timezone = .ok .BIRTHDAY) := by
  obtain ⟨hs, he⟩ := week_dates_ok clk dob k hvalid hk
  have hmain : detect_special_week_type db clk dob k timezone =
      (_is_birthday_week dob (addDays dob (7 * k))
          (addDays (addDays dob (7 * k)) 6)).map (fun bday =>
        if bday then WeekType.BIRTHDAY
        else if _is_year_start_week (addDays dob (7 * k))
            (addDays (addDays dob (7 * k)) 6) then WeekType.YEAR_START
        else if _is_leap_day_week (addDays dob (7 * k))
            (addDays (addDays dob (7 * k)) 6) then WeekType.LEAP_DAY
        else if _is_dst_transition_week (addDays dob (7 * k))
            (addDays (addDays dob (7 * k)) 6) tzinfo then
          WeekType.DST_TRANSITION
        else WeekType.NORMAL) := by
    unfold detect_special_week_type
    rw [hvalid, bind_ok_eq]
    by_cases hu : strUpper timezone = "UTC"
    · rw [if_pos hu] at htz
      have htzn : tzinfo = none := by
        injection htz with h
        exact h.symm
      subst htzn
      rw [if_pos hu]
      cases hb : _is_birthday_week dob (addDays dob (7 * k))
          (addDays (addDays dob (7 * k)) 6) with
      | error e =>
        simp only [hs, he, hb, bind_ok_eq, bind_error_eq, map_error_eq]
      | ok b =>
        simp only [hs, he, hb, bind_ok_eq, map_ok_eq]
        cases b with
        | true => rfl
        | false =>
          simp only [Bool.false_eq_true, if_false]
          split_ifs <;> rfl
    · rw [if_neg hu] at htz
      cases hvz : validate_timezone db timezone with
      | error e =>
        rw [hvz, map_error_eq] at htz
        exact absurd htz (by simp)
      | ok z =>
        rw [hvz, map_ok_eq] at htz
        have htzz : tzinfo = some z := by
          injection htz with h
          exact h.symm
        subst htzz
        rw [if_neg hu, map_ok_eq]
        cases hb : _is_birthday_week dob (addDays dob (7 * k))
            (addDays (addDays dob (7 * k)) 6) with
        | error e =>
          simp only [hs, he, hb, bind_ok_eq, bind_error_eq, map_error_eq]
        | ok b =>
          simp only [hs, he, hb, bind_ok_eq, map_ok_eq]
          cases b with
          | true => rfl
          | false =>
            simp only [Bool.false_eq_true, if_false]
            split_ifs <;> rfl
  refine ⟨hmain, fun hb hy => ?_⟩
  rw [hmain, hb, map_ok_eq]
  rfl

/-- Witness for C2, covering every outcome of the cascade.  Birth
1990-12-31, week 1565 = [2020-12-28, 2021-01-03] satisfies both Birthday
and YearStart and is classified `BIRTHDAY`; for birth 1990-06-15, week
1594 = [2021-01-01, 2021-01-07] is `YEAR_START`, week 1550 =
[2020-02-28, 2020-03-05] is `LEAP_DAY`, week 10 is `NORMAL`, and week 2 in
a zone whose adjacent-day offsets always differ is `DST_TRANSITION`. -/
theorem c2_birthday_precedence_witness :
    detect_special_week_type (fun _ => none) ⟨⟨2026, 10, 12⟩, ⟨2026, 10, 12⟩⟩
      ⟨1990, 12, 31⟩ 1565 "UTC" = .ok .BIRTHDAY ∧
    addDays ⟨1990, 12, 31⟩ (7 * 1565) = ⟨2020, 12, 28⟩ ∧
    _is_birthday_week ⟨1990, 12, 31⟩ ⟨2020, 12, 28⟩ ⟨2021, 1, 3⟩ = .ok true ∧
    _is_year_start_week ⟨2020, 12, 28⟩ ⟨2021, 1, 3⟩ = true ∧
    detect_special_week_type (fun _ => none) ⟨⟨2026, 10, 12⟩, ⟨2026, 10, 12⟩⟩
      ⟨1990, 6, 15⟩ 1594 "UTC" = .ok .YEAR_START ∧
    detect_special_week_type (fun _ => none) ⟨⟨2026, 10, 12⟩, ⟨2026, 10, 12⟩⟩
      ⟨1990, 6, 15⟩ 1550 "UTC" = .ok .LEAP_DAY ∧
    detect_special_week_type (fun _ => none) ⟨⟨2026, 10, 12⟩, ⟨2026, 10, 12⟩⟩
      ⟨1990, 6, 15⟩ 10 "UTC" = .ok .NORMAL ∧
    detect_special_week_type
      (fun s => if s = "America/New_York" then
        some ⟨"America/New_York", fun n => some (if n % 2 = 0 then 0 else 60),
          ⟨2026, 10, 12⟩, -240⟩ else none)
      ⟨⟨2026, 10, 12⟩, ⟨2026, 10, 12⟩⟩ ⟨1990, 6, 15⟩ 2 "America/New_York" =
      .ok .DST_TRANSITION := by
  have h1 := c2_birthday_precedence (fun _ => none)
    ⟨⟨2026, 10, 12⟩, ⟨2026, 10, 12⟩⟩ ⟨1990, 12, 31⟩ 1565 "UTC" none
    (by decide) (by decide) rfl
  have h2 := c2_birthday_precedence (fun _ => none)
    ⟨⟨2026, 10, 12⟩, ⟨2026, 10, 12⟩⟩ ⟨1990, 6, 15⟩ 1594 "UTC" none
    (by decide) (by decide) rfl
  have h3 := c2_birthday_precedence (fun _ => none)
    ⟨⟨2026, 10, 12⟩, ⟨2026, 10, 12⟩⟩ ⟨1990, 6, 15⟩ 1550 "UTC" none
    (by decide) (by decide) rfl
  have h4 := c2_birthday_precedence (fun _ => none)
    ⟨⟨2026, 10, 12⟩, ⟨2026, 10, 12⟩⟩ ⟨1990, 6, 15⟩ 10 "UTC" none
    (by decide) (by decide) rfl
  have h5 := c2_birthday_precedence
    (fun s => if s = "America/New_York" then
      some ⟨"America/New_York", fun n => some (if n % 2 = 0 then 0 else 60),
        ⟨2026, 10, 12⟩, -240⟩ else none)
    ⟨⟨2026, 10, 12⟩, ⟨2026, 10, 12⟩⟩ ⟨1990, 6, 15⟩ 2 "America/New_York"
    (some ⟨"America/New_York", fun n => some (if n % 2 = 0 then 0 else 60),
      ⟨2026, 10, 12⟩, -240⟩)
    (by decide) (by decide) rfl
  exact ⟨h1.2 (by decide) (by decide), by decide, by decide, by decide,
    h2.1.trans (by decide), h3.1.trans (by decide), h4.1.trans (by decide),
    h5.1.trans (by decide)⟩

/-! ### C10: the birthday classifier is partial for Feb-29 birth dates -/

/-- C10: for a Feb-29 birth date and any week whose start date falls in a
non-leap year, `_is_birthday_week` constructs `date(weekStart.year, 2, 29)`
unguarded and raises `ValueError` — an error kind outside the engine's own
`WeekCalculationError` hierarchy — so `detect_special_week_type` and
`get_week_summary` fail on such inputs instead of classifying the week. -/
theorem c10_feb29_classifier_raises (db : TzDb) (clk : Clock) (dob : Date)
    (k : Int) (timezone : String)
    (hvalid : validate_date_of_birth clk dob = .ok ())
    (hm : dob.month = 2) (hd : dob.day = 29) (hk : 0 ≤ k)
    (htz : strUpper timezone = "UTC" ∨ (db timezone).isSome = true)
    (hleap : isLeap (addDays dob (7 * k)).year = false) :
    _is_birthday_week dob (addDays dob (7 * k))
      (addDays (addDays dob (7 * k)) 6) = .error .valueError ∧
    detect_special_week_type db clk dob k timezone = .error .valueError ∧
    get_week_summary db clk dob k timezone = .error .valueError := by
  obtain ⟨hs, he⟩ := week_dates_ok clk dob k hvalid hk
  have hinv : isValidDate ⟨(addDays dob (7 * k)).year, 2, 29⟩ = false := by
    cases hvd : isValidDate ⟨(addDays dob (7 * k)).year, 2, 29⟩ with
    | false => rfl
    | true =>
      exfalso
      have hcomp := (isValidDate_iff _).mp hvd
      have h28 := daysInMonth_feb (addDays dob (7 * k)).year hleap
      simp only at hcomp
      omega
  have hbd : _is_birthday_week dob (addDays dob (7 * k))
      (addDays (addDays dob (7 * k)) 6) = .error .valueError := by
    unfold _is_birthday_week mkDate
    rw [hm, hd, if_neg (by simp [hinv]), bind_error_eq]
  have hdet : detect_special_week_type db clk dob k timezone =
      .error .valueError := by
    unfold detect_special_week_type
    rw [hvalid, bind_ok_eq]
    by_cases hu : strUpper timezone = "UTC"
    · rw [if_pos hu]
      simp only [hs, he, hbd, bind_ok_eq, bind_error_eq]
    · have hsome := htz.resolve_left hu
      obtain ⟨z, hz⟩ := Option.isSome_iff_exists.mp hsome
      have hvz : validate_timezone db timezone = .ok z := by
        unfold validate_timezone
        rw [hz]
      rw [if_neg hu, hvz, map_ok_eq]
      simp only [hs, he, hbd, bind_ok_eq, bind_error_eq]
  refine ⟨hbd, hdet, ?_⟩
  unfold get_week_summary
  rw [hvalid, bind_ok_eq]
  simp only [hs, he, hdet, bind_ok_eq, bind_error_eq]

/-- Witness for C10: birth 1992-02-29, week 52 starts 1993-02-27 in
non-leap 1993; classification and the week summary both fail with
`ValueError`. -/
theorem c10_feb29_classifier_raises_witness :
    detect_special_week_type (fun _ => none) ⟨⟨2026, 10, 12⟩, ⟨2026, 10, 12⟩⟩
      ⟨1992, 2, 29⟩ 52 "UTC" = .error .valueError ∧
    get_week_summary (fun _ => none) ⟨⟨2026, 10, 12⟩, ⟨2026, 10, 12⟩⟩
      ⟨1992, 2, 29⟩ 52 "UTC" = .error .valueError ∧
    addDays ⟨1992, 2, 29⟩ (7 * 52) = ⟨1993, 2, 27⟩ ∧
    isLeap 1993 = false := by
  have h := c10_feb29_classifier_raises (fun _ => none)
    ⟨⟨2026, 10, 12⟩, ⟨2026, 10, 12⟩⟩ ⟨1992, 2, 29⟩ 52 "UTC" (by decide) rfl rfl
    (by decide) (Or.inl (by decide)) (by decide)
  exact ⟨h.2.1, h.2.2, by decide, by decide⟩

/-! ### C7: life-progress percentage capping -/

theorem addYears_sub_ge (dob : Date) (L : Int)
    (hdob : isValidDate dob = true) (hL : 1 ≤ L) :
    361 ≤ dateSub (addYears dob L) dob := by
  obtain ⟨h1, hm1, hm2, hd1, hd2⟩ := (isValidDate_iff dob).mp hdob
  have hy : ((dob.year : Int) + L).toNat = dob.year + L.toNat := by omega
  have hL1 : 1 ≤ L.toNat := by omega
  have hmono := daysBeforeYear_mono (dob.year + 1) (dob.year + L.toNat)
    (by omega)
  have hsucc := daysBeforeYear_succ dob.year h1
  have hge := daysInYear_ge dob.year
  have hnear := daysBeforeMonth_near dob.year (dob.year + L.toNat) dob.month
  have h28 := daysInMonth_ge28 (dob.year + L.toNat) dob.month
  have h31 := daysInMonth_le dob.year dob.month
  have hmin : dob.day - 3 ≤
      min dob.day (daysInMonth (dob.year + L.toNat) dob.month) := by
    rw [Nat.min_def]
    split <;> omega
  have hrw : addYears dob L = ⟨dob.year + L.toNat, dob.month,
      min dob.day (daysInMonth (dob.year + L.toNat) dob.month)⟩ := by
    unfold addYears
    rw [hy]
  rw [hrw]
  show (361 : Int) ≤
    ((daysBeforeYear (dob.year + L.toNat) +
        daysBeforeMonth (dob.year + L.toNat) dob.month +
        min dob.day (daysInMonth (dob.year + L.toNat) dob.month) : Nat) : Int) -
      ((daysBeforeYear dob.year + daysBeforeMonth dob.year dob.month +
        dob.day : Nat) : Int)
  omega

theorem calculate_total_weeks_pos (clk : Clock) (dob : Date) (L tw : Int)
    (hdob : isValidDate dob = true) (hL1 : 1 ≤ L)
    (htw : calculate_total_weeks clk dob L = .ok tw) : 1 ≤ tw := by
  unfold calculate_total_weeks at htw
  cases hv : validate_date_of_birth clk dob with
  | error e =>
    rw [hv, bind_error_eq] at htw
    exact absurd htw (by simp)
  | ok u =>
    cases u
    rw [hv, bind_ok_eq, if_neg (by omega : ¬ L ≤ 0)] at htw
    by_cases h150 : 150 < L
    · rw [if_pos h150] at htw
      exact absurd htw (by simp)
    · rw [if_neg h150] at htw
      have heq : (dateSub (addYears dob L) dob).fdiv 7 = tw := by
        injection htw
      have hbound := addYears_sub_ge dob L hdob hL1
      rw [Int.fdiv_eq_ediv _ (by norm_num : (0 : Int) ≤ 7)] at heq
      omega

/-- C7: in `calculate_life_progress`, the progress percentage is
`round2 (min 100 ((currentWeek / totalWeeks) * 100))` when `totalWeeks > 0`
and `round2 0` otherwise, and `weeksRemaining = max 0 (totalWeeks -
currentWeek)`; hence whenever `currentWeek > totalWeeks` the percentage is
exactly 100 and the remaining weeks exactly 0, never negative. -/
theorem c7_progress_capping (db : TzDb) (clk : Clock) (dob : Date) (L : Int)
    (timezone : String) (tw cw : Int)
    (hdob : isValidDate dob = true)
    (hL1 : 1 ≤ L)
    (htw : calculate_total_weeks clk dob L = .ok tw)
    (hcw : calculate_current_week_index db clk dob timezone = .ok cw)
    (hok : (calculate_life_progress db clk dob L timezone).isOk = true) :
    (calculate_life_progress db clk dob L timezone).map
        (fun r => (r.progress_percentage, r.weeks_remaining)) =
      .ok (round2 (min 100 (if 0 < tw then ((cw : ℚ) / (tw : ℚ)) * 100 else 0)),
        max 0 (tw - cw)) ∧
    (tw < cw →
      (calculate_life_progress db clk dob L timezone).map
          (fun r => (r.progress_percentage, r.weeks_remaining)) =
        .ok (100, 0)) := by
  unfold calculate_life_progress at hok ⊢
  simp only [htw, hcw, bind_ok_eq] at hok ⊢
  cases hnow : get_timezone_aware_datetime db clk timezone with
  | error e =>
    simp only [hnow, bind_error_eq] at hok
    simp [Except.isOk, Except.toBool] at hok
  | ok now =>
    simp only [hnow, bind_ok_eq] at hok ⊢
    cases hinfo : get_week_summary db clk dob cw timezone with
    | error e =>
      simp only [hinfo, bind_error_eq] at hok
      simp [Except.isOk, Except.toBool] at hok
    | ok info =>
      simp only [hinfo, bind_ok_eq] at hok ⊢
      rw [map_ok_eq]
      constructor
      · rfl
      · intro hlt
        have htw1 : 1 ≤ tw := calculate_total_weeks_pos clk dob L tw hdob hL1 htw
        have htq : (0 : ℚ) < (tw : ℚ) := by
          exact_mod_cast (by omega : (0 : Int) < tw)
        have hcq : (tw : ℚ) < (cw : ℚ) := by exact_mod_cast hlt
        have hge : (100 : ℚ) ≤ ((cw : ℚ) / (tw : ℚ)) * 100 := by
          rw [div_mul_eq_mul_div, le_div_iff₀ htq]
          nlinarith
        have hmin : min (100 : ℚ) (((cw : ℚ) / (tw : ℚ)) * 100) = 100 :=
          min_eq_left hge
        have hround : round2 (100 : ℚ) = 100 := by
          unfold round2
          rw [show ((100 : ℚ) * 100) = ((10000 : ℤ) : ℚ) by norm_num,
            round_intCast]
          norm_num
        rw [if_pos (by omega : (0 : Int) < tw), hmin, hround,
          max_eq_left (by omega : tw - cw ≤ 0)]

/-- Witness for C7: born 1900-01-01 with a 1-year configured lifespan
(total 52 weeks), evaluated on 2026-10-12 (current week 6615): the
percentage is exactly 100 and remaining weeks exactly 0. -/
theorem c7_progress_capping_witness :
    (calculate_life_progress (fun _ => none) ⟨⟨2026, 10, 12⟩, ⟨2026, 10, 12⟩⟩
        ⟨1900, 1, 1⟩ 1 "UTC").map
      (fun r => (r.progress_percentage, r.weeks_remaining)) = .ok (100, 0) :=
  (c7_progress_capping (fun _ => none) ⟨⟨2026, 10, 12⟩, ⟨2026, 10, 12⟩⟩
    ⟨1900, 1, 1⟩ 1 "UTC" 52 6615 (by decide) (by decide) (by decide)
    (by decide) (by decide)).2 (by decide)

/-! ### C1: birthday detection across a year boundary -/

/-- A single anniversary probe of the spec's birthday algorithm: does
`(y, m, day)` exist and fall within the week? -/
def anniversaryInWeek (y m day : Nat) (week_start week_end : Date) : Bool :=
  match mkDate y m day with
  | .ok ann => decide (week_start.toOrdinal ≤ ann.toOrdinal ∧
      ann.toOrdinal ≤ week_end.toOrdinal)
  | .error _ => false

/-- The spec's birthday-week algorithm, stated from its words for
comparison with the implementation: compute the anniversary for
`weekStart.year` and for `weekStart.year ± 1` and return true iff any of
the three falls within `[weekStart, weekEnd]`. -/
def spec_is_birthday_week (dob week_start week_end : Date) : Bool :=
  anniversaryInWeek week_start.year dob.month dob.day week_start week_end ||
  anniversaryInWeek (week_start.year - 1) dob.month dob.day week_start
    week_end ||
  anniversaryInWeek (week_start.year + 1) dob.month dob.day week_start
    week_end

/-- C1: counterexample.  For birth date 1990-01-01, week 1617 spans
[2020-12-28, 2021-01-03] and contains the anniversary 2021-01-01, yet
`_is_birthday_week` answers false (its loop only ever examines the
`weekStart.year` anniversary, 2020-01-01, which precedes the week) and the
week is classified `YEAR_START` instead of `BIRTHDAY`; the spec's
±1-year algorithm answers true. -/
theorem c1_birthday_cross_year_counterexample :
    _is_birthday_week ⟨1990, 1, 1⟩ ⟨2020, 12, 28⟩ ⟨2021, 1, 3⟩ = .ok false ∧
    spec_is_birthday_week ⟨1990, 1, 1⟩ ⟨2020, 12, 28⟩ ⟨2021, 1, 3⟩ = true ∧
    isValidDate ⟨2021, 1, 1⟩ = true ∧
    (⟨2021, 1, 1⟩ : Date).month = (⟨1990, 1, 1⟩ : Date).month ∧
    (⟨2021, 1, 1⟩ : Date).day = (⟨1990, 1, 1⟩ : Date).day ∧
    (⟨2020, 12, 28⟩ : Date).toOrdinal ≤ (⟨2021, 1, 1⟩ : Date).toOrdinal ∧
    (⟨2021, 1, 1⟩ : Date).toOrdinal ≤ (⟨2021, 1, 3⟩ : Date).toOrdinal ∧
    (⟨2021, 1, 3⟩ : Date).toOrdinal = (⟨2020, 12, 28⟩ : Date).toOrdinal + 6 ∧
    get_week_start_date ⟨⟨2026, 10, 12⟩, ⟨2026, 10, 12⟩⟩ ⟨1990, 1, 1⟩ 1617 =
      .ok ⟨2020, 12, 28⟩ ∧
    get_week_end_date ⟨⟨2026, 10, 12⟩, ⟨2026, 10, 12⟩⟩ ⟨1990, 1, 1⟩ 1617 =
      .ok ⟨2021, 1, 3⟩ ∧
    detect_special_week_type (fun _ => none) ⟨⟨2026, 10, 12⟩, ⟨2026, 10, 12⟩⟩
      ⟨1990, 1, 1⟩ 1617 "UTC" = .ok .YEAR_START := by
  decide

end LifeTime
